import Mathlib

/-!
Verification of the ANANYA-AI core analysis modules
(`utils/text_analysis.py`, `modules/interaction_analyzer.py`,
`modules/bias_detector.py`, `modules/adaptive_engine.py`) against their
natural-language specification.

The Python code is shallowly embedded: text is `String` (Python `str`, one
`Char` per code point), Python `int` is `Int`, Python `float` is modelled by
`Rat` (only comparison behaviour of the floats matters here, and the
constants involved are exactly representable).  External deterministic
primitives that the repository calls but does not define -- the `textstat`
library, CPython float formatting, and `hashlib.sha256` -- are gathered in a
`PyExt` record of fixed pure functions; everything written in the repository
itself is embedded directly.  The one source of nondeterminism in the core,
`datetime.utcnow()`, is passed in explicitly as a `now : String` argument.

String helpers mirror CPython semantics on the ASCII fragment the code
exercises (`str.lower`, `str.strip`, `str.split`, `in`, and the small number
of regular expressions used, each of which is transcribed as a direct
scanner; scanners are written as structural accumulator recursions so that
they evaluate by kernel reduction).  Python `set` iteration order is
unspecified (hash dependent) but fixed within a process; wherever the code
converts a set to a list we model it by a canonical deterministic order and
note the fact.
-/

/-- Python whitespace (the class `\s` and the default `str.strip` set). -/
def pySpace (c : Char) : Bool :=
  c = ' ' || c = '\t' || c = '\n' || c = '\r' || c = '\x0b' || c = '\x0c'

/-- Python regex word character `\w` (ASCII fragment). -/
def isWordChar (c : Char) : Bool :=
  c.isAlpha || c.isDigit || c = '_'

/-- Left strip: drop leading Python whitespace. -/
def dropLeadWs (l : List Char) : List Char := l.dropWhile pySpace

/-- Right strip: drop trailing Python whitespace. -/
def dropTrailWs (l : List Char) : List Char := (l.reverse.dropWhile pySpace).reverse

/-- Python `str.strip()` on the character list. -/
def stripChars (l : List Char) : List Char := dropTrailWs (dropLeadWs l)

/-- Python `str.lower()` (ASCII fragment). -/
def lowerL (l : List Char) : List Char := l.map Char.toLower

/-- Python substring test `needle in hay` (`""` is in everything). -/
def containsL (hay needle : List Char) : Bool :=
  match hay with
  | [] => needle.isEmpty
  | _ :: t => needle.isPrefixOf hay || containsL t needle

/-- Case-insensitive prefix match (regex literal with `re.IGNORECASE`). -/
def matchesCI : List Char → List Char → Bool
  | [], _ => true
  | _ :: _, [] => false
  | k :: ks, c :: cs => (k.toLower = c.toLower) && matchesCI ks cs

/-- Case-insensitive occurrence test for a fixed phrase. -/
def containsCI (key : List Char) : List Char → Bool
  | [] => key.isEmpty
  | c :: rest => matchesCI key (c :: rest) || containsCI key rest

/-- Scanner for `replaceCI`.  While `skip` is positive the character belongs
to an already-replaced occurrence and is dropped; at `skip = 0` a match of
`k` emits `v` and schedules the remaining `k.length - 1` matched characters
to be dropped. -/
def replCIGo (k v : List Char) (skip : Nat) : List Char → List Char
  | [] => []
  | c :: rest =>
    match skip with
    | n + 1 => replCIGo k v n rest
    | 0 =>
      if matchesCI k (c :: rest) then v ++ replCIGo k v (k.length - 1) rest
      else c :: replCIGo k v 0 rest

/-- `re.compile(re.escape(key), re.IGNORECASE).sub(val, l)`: replace every
left-most non-overlapping case-insensitive occurrence of `key` by `val`,
without rescanning the replacement text.  The table phrases are never empty;
for an empty key the input is returned unchanged. -/
def replaceCI (key val l : List Char) : List Char :=
  match key with
  | [] => l
  | _ :: _ => replCIGo key val 0 l

/-- Python `'.!?'` membership used by the sentence regexes. -/
def isSentPunct (c : Char) : Bool := c = '.' || c = '!' || c = '?'

/-- Scanner for `splitWs`; `cur` is the reversed current word. -/
def splitWsGo (cur : List Char) : List Char → List (List Char)
  | [] => if cur.isEmpty then [] else [cur.reverse]
  | c :: rest =>
    if pySpace c then
      if cur.isEmpty then splitWsGo [] rest
      else cur.reverse :: splitWsGo [] rest
    else splitWsGo (c :: cur) rest

/-- Python `str.split()` with no argument: split on whitespace runs,
discarding empty pieces. -/
def splitWs (l : List Char) : List (List Char) := splitWsGo [] l

/-- Scanner for `splitKeepPunct`; `inPunct` says whether `cur` (reversed) is
a run of sentence punctuation or a text piece. -/
def splitKPGo (inPunct : Bool) (cur : List Char) : List Char → List (List Char)
  | [] => if inPunct then [cur.reverse, []] else [cur.reverse]
  | c :: rest =>
    if inPunct then
      if isSentPunct c then splitKPGo true (c :: cur) rest
      else cur.reverse :: splitKPGo false [c] rest
    else
      if isSentPunct c then cur.reverse :: splitKPGo true [c] rest
      else splitKPGo false (c :: cur) rest

/-- `re.split(r'([.!?]+)', l)`: alternating text/punctuation-run pieces,
starting and ending with (possibly empty) text pieces. -/
def splitKeepPunct (l : List Char) : List (List Char) := splitKPGo false [] l

/-- Even-position elements: turns the keep-separator split into
`re.split(r'[.!?]+', l)` (fragments only). -/
def evens : List α → List α
  | [] => []
  | [a] => [a]
  | a :: _ :: rest => a :: evens rest

/-- `re.split(r'[.!?]+', l)`. -/
def splitPunctRuns (l : List Char) : List (List Char) := evens (splitKeepPunct l)

/-- Scanner for `splitSentWs`.  `skipping` means we are inside the
whitespace run being consumed by a split; otherwise `cur` holds the reversed
current piece, whose head is the previously read character (for the
look-behind). -/
def splitSWGo (skipping : Bool) (cur : List Char) : List Char → List (List Char)
  | [] => [cur.reverse]
  | c :: rest =>
    if skipping then
      if pySpace c then splitSWGo true cur rest
      else splitSWGo false [c] rest
    else
      if pySpace c && (match cur with | p :: _ => isSentPunct p | [] => false) then
        cur.reverse :: splitSWGo true [] rest
      else splitSWGo false (c :: cur) rest

/-- `re.split(r'(?<=[.!?])\s+', l)`: split at each whitespace run that is
preceded by a sentence-ending punctuation character; the punctuation stays
with the left piece and the whitespace is consumed. -/
def splitSentWs (l : List Char) : List (List Char) := splitSWGo false [] l

/-- Scanner for Python `content.split('\n\n')` (left-most non-overlapping). -/
def splitParasGo (cur : List Char) : List Char → List (List Char)
  | '\n' :: '\n' :: rest => cur.reverse :: splitParasGo [] rest
  | c :: rest => splitParasGo (c :: cur) rest
  | [] => [cur.reverse]

/-- Python `content.split('\n\n')`. -/
def splitParas (l : List Char) : List (List Char) := splitParasGo [] l

/-- Scanner for `dedupFirst`; `seen` holds the values already emitted. -/
def dedupFirstGo (seen : List (List Char)) : List (List Char) → List (List Char)
  | [] => []
  | a :: rest =>
    if decide (a ∈ seen) then dedupFirstGo seen rest
    else a :: dedupFirstGo (a :: seen) rest

/-- Deduplication keeping first occurrences (used to model Python `set`
construction where the iteration order does not matter or is modelled
canonically). -/
def dedupFirst (l : List (List Char)) : List (List Char) := dedupFirstGo [] l

/-- Python string `<=` (lexicographic by code point). -/
def strLeL : List Char → List Char → Bool
  | [], _ => true
  | _ :: _, [] => false
  | a :: as, b :: bs => if a = b then strLeL as bs else decide (a < b)

def strLe (a b : String) : Bool := strLeL a.data b.data

/-- Stable insertion used by `insertionSortStr`. -/
def insertStr (x : String) : List String → List String
  | [] => [x]
  | y :: ys => if strLe x y then x :: y :: ys else y :: insertStr x ys

/-- Python `sorted` on a list of strings. -/
def insertionSortStr : List String → List String
  | [] => []
  | x :: xs => insertStr x (insertionSortStr xs)

theorem insertStr_length (x : String) (l : List String) :
    (insertStr x l).length = l.length + 1 := by
  induction l with
  | nil => simp [insertStr]
  | cons y ys ih =>
    by_cases h : strLe x y = true
    · simp [insertStr, h]
    · simp [insertStr, h, ih]

theorem insertionSortStr_length (l : List String) :
    (insertionSortStr l).length = l.length := by
  induction l with
  | nil => rfl
  | cons x xs ih => simp [insertionSortStr, insertStr_length, ih]

/-! ## `utils/text_analysis.py` -/

/-- The ordered substitution table of `TextAnalyzer.simplify_text`
(Python dict literal; insertion order preserved). -/
def replacements : List (List Char × List Char) := [
  ("utilize".data, "use".data),
  ("implement".data, "do".data),
  ("facilitate".data, "help".data),
  ("commence".data, "start".data),
  ("terminate".data, "end".data),
  ("prior to".data, "before".data),
  ("subsequent to".data, "after".data),
  ("in order to".data, "to".data),
  ("due to the fact that".data, "because".data),
  ("at this point in time".data, "now".data),
  ("in the event that".data, "if".data),
  ("for the purpose of".data, "to".data),
  ("in addition to".data, "also".data),
  ("with regard to".data, "about".data),
  ("in accordance with".data, "following".data),
  ("nevertheless".data, "but".data),
  ("furthermore".data, "also".data),
  ("consequently".data, "so".data),
  ("approximately".data, "about".data),
  ("sufficient".data, "enough".data),
  ("demonstrate".data, "show".data),
  ("indicate".data, "show".data),
  ("obtain".data, "get".data),
  ("require".data, "need".data),
  ("assist".data, "help".data),
  ("attempt".data, "try".data),
  ("determine".data, "find out".data),
  ("establish".data, "set up".data),
  ("evaluate".data, "check".data),
  ("identify".data, "find".data),
  ("maintain".data, "keep".data),
  ("modify".data, "change".data),
  ("perform".data, "do".data),
  ("provide".data, "give".data),
  ("regarding".data, "about".data),
  ("remain".data, "stay".data),
  ("request".data, "ask for".data),
  ("select".data, "choose".data),
  ("therefore".data, "so".data),
  ("currently".data, "now".data),
  ("additional".data, "more".data),
  ("component".data, "part".data),
  ("methodology".data, "method".data),
  ("functionality".data, "feature".data)]

/-- One parity-driven step of the `level == "simple"` sentence-resplitting
loop of `simplify_text`: `isText` says whether the current piece is a text
piece (even index) or a punctuation-run piece (odd index), and `acc` is the
reversed `new_sentences` accumulator. -/
def resplitStep (acc : List (List Char)) (isText : Bool) (piece : List Char) :
    List (List Char) :=
  if isText then
    let words := splitWs piece
    if words.length > 20 then
      let midpoint := words.length / 2
      (List.intercalate [' '] (words.drop midpoint)) ::
        (List.intercalate [' '] (words.take midpoint) ++ ['.']) :: acc
    else
      piece :: acc
  else
    match acc with
    | [] => []
    | lastPiece :: rest => (lastPiece ++ piece) :: rest

/-- The `level == "simple"` resplitting loop over the keep-separator split. -/
def resplitFold (acc : List (List Char)) (isText : Bool) :
    List (List Char) → List (List Char)
  | [] => acc
  | piece :: rest => resplitFold (resplitStep acc isText piece) (!isText) rest

/-- `TextAnalyzer.simplify_text`: ordered case-insensitive substitutions,
then (for level `"simple"`) resplitting of sentences longer than 20 words,
then `str.strip()`. -/
def simplify_text (text : String) (level : String) : String :=
  let simplified := replacements.foldl (fun s kv => replaceCI kv.1 kv.2 s) text.data
  let simplified :=
    if level = "simple" then
      List.intercalate [' '] ((resplitFold [] true (splitKeepPunct simplified)).reverse)
    else simplified
  ⟨stripChars simplified⟩

example : simplify_text "We utilize this in order to demonstrate it." "moderate" =
    "We use this to show it." := by decide
example : simplify_text "prior in order to x" "moderate" = "prior to x" := by decide
example : simplify_text "prior to x" "moderate" = "before x" := by decide

/-! ## `models/schemas.py` (enums and records used by the claims) -/

/-- `schemas.BiasType`. -/
inductive BiasType
  | language_complexity
  | pace_mismatch
  | prior_exposure_gap
  | representation_issue
deriving DecidableEq

/-- The `.value` string of a `BiasType` member. -/
def BiasType.value : BiasType → String
  | .language_complexity => "language_complexity"
  | .pace_mismatch => "pace_mismatch"
  | .prior_exposure_gap => "prior_exposure_gap"
  | .representation_issue => "representation_issue"

/-- `schemas.SeverityLevel`. -/
inductive SeverityLevel
  | low
  | medium
  | high
deriving DecidableEq

/-- The `.value` string of a `SeverityLevel` member. -/
def SeverityLevel.value : SeverityLevel → String
  | .low => "low"
  | .medium => "medium"
  | .high => "high"

/-- `schemas.AdaptationType`. -/
inductive AdaptationType
  | simplify_language
  | add_examples
  | change_representation
  | adjust_pace
deriving DecidableEq

/-- The `.value` string of an `AdaptationType` member. -/
def AdaptationType.value : AdaptationType → String
  | .simplify_language => "simplify_language"
  | .add_examples => "add_examples"
  | .change_representation => "change_representation"
  | .adjust_pace => "adjust_pace"

/-- `schemas.InteractionData` (anonymized interaction record). -/
structure InteractionData where
  session_hash : String
  content_id : String
  response_time_ms : Int
  action_type : String
  content_text : Option String
  is_repeated_error : Bool
  clarification_count : Int
  time_on_content_seconds : Int
deriving DecidableEq

/-- `schemas.InteractionAnalysisResult` with the `comprehension_indicators`
dictionary modelled by the record below. -/
structure ComprehensionIndicators where
  response_speed : String
  help_seeking : Bool
  persistence : Bool
  content_engagement : String
  may_benefit_from : Option String
deriving DecidableEq

structure InteractionAnalysisResult where
  session_hash : String
  response_pattern : String
  engagement_level : String
  comprehension_indicators : ComprehensionIndicators
  requires_adaptation : Bool
  suggested_adaptations : List AdaptationType
deriving DecidableEq

/-! ## `modules/interaction_analyzer.py` -/

/-- `InteractionAnalyzer` instance state: the three thresholds set in
`__init__` from the class constants. -/
structure InteractionAnalyzer where
  slow_response_threshold : Int
  fast_response_threshold : Int
  high_clarification_threshold : Int

/-- `InteractionAnalyzer()` with the default thresholds
(`DEFAULT_SLOW_RESPONSE_MS = 10000`, `DEFAULT_FAST_RESPONSE_MS = 1000`,
`DEFAULT_HIGH_CLARIFICATION_COUNT = 3`). -/
def mkInteractionAnalyzer : InteractionAnalyzer :=
  { slow_response_threshold := 10000
    fast_response_threshold := 1000
    high_clarification_threshold := 3 }

/-- `InteractionAnalyzer._classify_response_pattern`. -/
def classify_response_pattern (a : InteractionAnalyzer)
    (response_time_ms : Int) (action_type : String) : String :=
  if action_type = "clarification" then "seeking_help"
  else if response_time_ms > a.slow_response_threshold then "deliberate"
  else if response_time_ms < a.fast_response_threshold then "quick"
  else "normal"

/-- `InteractionAnalyzer._assess_engagement`. -/
def assess_engagement (time_on_content : Int) (action_type : String)
    (clarification_count : Int) : String :=
  if action_type = "question" || clarification_count > 0 then "high"
  else if time_on_content > 60 then "high"
  else if time_on_content < 5 then "low"
  else "medium"

/-- `InteractionAnalyzer._build_comprehension_indicators`. -/
def build_comprehension_indicators (a : InteractionAnalyzer)
    (interaction : InteractionData) : ComprehensionIndicators :=
  { response_speed :=
      if interaction.response_time_ms > a.slow_response_threshold then "taking_time"
      else if interaction.response_time_ms < a.fast_response_threshold then "quick"
      else "normal"
    help_seeking :=
      interaction.clarification_count > 0 || interaction.action_type = "clarification"
    persistence := true
    content_engagement := "present"
    may_benefit_from :=
      if interaction.is_repeated_error then some "alternative_explanation" else none }

/-- `InteractionAnalyzer._determine_adaptations` (returns the
`(requires_adaptation, adaptations)` pair; the three rules append in the
source order, so a type can occur twice). -/
def determine_adaptations (a : InteractionAnalyzer) (interaction : InteractionData)
    (indicators : ComprehensionIndicators) : Bool × List AdaptationType :=
  let adaptations :=
    (if indicators.response_speed = "taking_time" then [AdaptationType.simplify_language]
     else []) ++
    (if interaction.is_repeated_error then
      [AdaptationType.add_examples, AdaptationType.change_representation]
     else []) ++
    (if interaction.clarification_count ≥ a.high_clarification_threshold then
      [AdaptationType.simplify_language]
     else [])
  (adaptations.length > 0, adaptations)

/-- `InteractionAnalyzer.analyze_single_interaction`. -/
def analyze_single_interaction (a : InteractionAnalyzer)
    (interaction : InteractionData) : InteractionAnalysisResult :=
  let response_pattern :=
    classify_response_pattern a interaction.response_time_ms interaction.action_type
  let engagement_level :=
    assess_engagement interaction.time_on_content_seconds interaction.action_type
      interaction.clarification_count
  let comprehension_indicators := build_comprehension_indicators a interaction
  let det := determine_adaptations a interaction comprehension_indicators
  { session_hash := interaction.session_hash
    response_pattern := response_pattern
    engagement_level := engagement_level
    comprehension_indicators := comprehension_indicators
    requires_adaptation := det.1
    suggested_adaptations := det.2 }

/-- External deterministic primitives used by the repository but defined
outside it: the seven `textstat` scoring functions and its syllable counter,
CPython float formatting (`f"{x:.1f}"` and `f"{x:.0%}"`), and
`hashlib.sha256(...).hexdigest()`.  Each is a fixed pure function of its
string/number argument. -/
structure PyExt where
  flesch_kincaid_grade : String → Rat
  flesch_reading_ease : String → Rat
  gunning_fog : String → Rat
  smog_index : String → Rat
  automated_readability_index : String → Rat
  coleman_liau_index : String → Rat
  dale_chall_readability_score : String → Rat
  syllable_count : String → Nat
  fmt_fixed1 : Rat → String
  fmt_percent0 : Rat → String
  sha256_hexdigest : String → String

/-- The dictionary returned by `TextAnalyzer.get_readability_metrics`. -/
structure ReadabilityMetrics where
  flesch_kincaid_grade : Rat
  flesch_reading_ease : Rat
  gunning_fog : Rat
  smog_index : Rat
  automated_readability_index : Rat
  coleman_liau_index : Rat
  dale_chall_readability : Rat
deriving DecidableEq

/-- The trivial baseline returned for near-empty text. -/
def trivialMetrics : ReadabilityMetrics :=
  { flesch_kincaid_grade := 0
    flesch_reading_ease := 100
    gunning_fog := 0
    smog_index := 0
    automated_readability_index := 0
    coleman_liau_index := 0
    dale_chall_readability := 0 }

/-- `TextAnalyzer.get_readability_metrics`: the trivial baseline when the
text is empty or strips to fewer than 10 characters, otherwise the seven
`textstat` scores.  A total function: no input raises. -/
def get_readability_metrics (ext : PyExt) (text : String) : ReadabilityMetrics :=
  if text = "" ∨ (stripChars text.data).length < 10 then
    trivialMetrics
  else
    { flesch_kincaid_grade := ext.flesch_kincaid_grade text
      flesch_reading_ease := ext.flesch_reading_ease text
      gunning_fog := ext.gunning_fog text
      smog_index := ext.smog_index text
      automated_readability_index := ext.automated_readability_index text
      coleman_liau_index := ext.coleman_liau_index text
      dale_chall_readability := ext.dale_chall_readability_score text }

/-- `TextAnalyzer.get_complexity_level`. -/
def get_complexity_level (flesch_kincaid_grade : Rat) : String :=
  if flesch_kincaid_grade ≤ 6 then "simple"
  else if flesch_kincaid_grade ≤ 10 then "moderate"
  else "complex"

/-- Scanner producing the maximal word-character runs of a text
(`re.findall(r'\b[a-zA-Z]+\b', ...)` and the academic-marker regexes only
ever match whole such runs, see the lemma-free argument in the doc comments
below). -/
def wordRunsGo (inWord : Bool) (cur : List Char) : List Char → List (List Char)
  | [] => if inWord then [cur.reverse] else []
  | c :: rest =>
    if inWord then
      if isWordChar c then wordRunsGo true (c :: cur) rest
      else cur.reverse :: wordRunsGo false [] rest
    else
      if isWordChar c then wordRunsGo true [c] rest
      else wordRunsGo false [] rest

/-- Maximal runs of word characters. -/
def wordRuns (l : List Char) : List (List Char) := wordRunsGo false [] l

/-- `re.findall(r'\b[a-zA-Z]+\b', l)`: a maximal word-character run matches
iff it is entirely alphabetic (a run adjacent to a digit or underscore
within the same run has no inner word boundary). -/
def alphaWords (l : List Char) : List (List Char) :=
  (wordRuns l).filter (fun w => w.all Char.isAlpha)

/-- `TextAnalyzer.identify_complex_words`: unique lower-cased alphabetic
words with at least `syllable_threshold` syllables, lexicographically
sorted.  The Python iteration over `set(words)` is order-irrelevant because
of the final `sorted`. -/
def identify_complex_words (ext : PyExt) (text : String)
    (syllable_threshold : Nat) : List (List Char) :=
  let words := alphaWords (lowerL text.data)
  let uniq := dedupFirst words
  let cws := uniq.filter (fun w => ext.syllable_count ⟨w⟩ ≥ syllable_threshold)
  ((insertionSortStr (cws.map (fun w => (⟨w⟩ : String)))).map String.data)

/-- One entry of the `identify_jargon_patterns` result (a Python dict with
keys `type`, `matches`/`count`, `suggestion`; the `matches` key is
rendered as `matched` because `matches` is a reserved word in Lean). -/
structure JargonPattern where
  type : String
  matched : List (List Char)
  count : Nat
  suggestion : String
deriving DecidableEq

/-- The four `academic_markers` alternation vocabularies of
`TextAnalyzer.identify_jargon_patterns`. -/
def academic_markers : List (List (List Char)) := [
  ["therefore".data, "hence".data, "thus".data, "wherein".data,
   "whereby".data, "herein".data],
  ["aforementioned".data, "notwithstanding".data, "pursuant".data],
  ["paradigm".data, "methodology".data, "framework".data,
   "implementation".data],
  ["utilizing".data, "commenced".data, "terminated".data,
   "facilitated".data]]

/-- `TextAnalyzer.identify_jargon_patterns`: per marker group, the
whole-word case-lowered matches in textual order (a `\b(w1|w2|...)\b`
alternation of alphabetic words can only match a whole word-character run);
`list(set(matches))` is modelled as first-occurrence deduplication (Python
set order is unspecified but fixed within a process).  Then the
long-sentence count over `re.split(r'[.!?]+', text)`. -/
def identify_jargon_patterns (text : String) : List JargonPattern :=
  let runs := wordRuns (lowerL text.data)
  let groups := academic_markers.filterMap (fun g =>
    let ms := runs.filter (fun r => decide (r ∈ g))
    if ms.isEmpty then none
    else some { type := "academic_language", matched := dedupFirst ms, count := 0,
                suggestion := "Consider simpler alternatives" })
  let sentences := splitPunctRuns text.data
  let long_sentences := sentences.filter (fun s => (splitWs s).length > 30)
  groups ++
    (if long_sentences.isEmpty then []
     else [{ type := "long_sentences", matched := [], count := long_sentences.length,
             suggestion := "Break into shorter sentences" }])

example : identify_jargon_patterns "Thus the paradigm is a framework." =
    [{ type := "academic_language", matched := ["thus".data], count := 0,
       suggestion := "Consider simpler alternatives" },
     { type := "academic_language",
       matched := ["paradigm".data, "framework".data], count := 0,
       suggestion := "Consider simpler alternatives" }] := by decide

/-! ## `config.py` -/

/-- `Settings.COMPLEXITY_THRESHOLD_HIGH` (Flesch-Kincaid grade level). -/
def COMPLEXITY_THRESHOLD_HIGH : Rat := 12

/-- `Settings.COMPLEXITY_THRESHOLD_MEDIUM`. -/
def COMPLEXITY_THRESHOLD_MEDIUM : Rat := 8

/-! ## `modules/bias_detector.py` -/

/-- `schemas.BiasIndicator`. -/
structure BiasIndicator where
  bias_type : BiasType
  severity : SeverityLevel
  confidence : Rat
  description : String
  affected_content_segment : Option String
deriving DecidableEq

/-- One entry of the `interaction_patterns` list of a
`BiasDetectionRequest` (a Python dict read only through `.get` with the
defaults shown in the source; a missing key is `none`). -/
structure InteractionPatternDict where
  response_time_ms : Option Int
  clarification_count : Option Int
  is_repeated_error : Option Bool
deriving DecidableEq

/-- `schemas.BiasDetectionRequest`. -/
structure BiasDetectionRequest where
  session_hash : String
  content_text : String
  interaction_patterns : List InteractionPatternDict
  previous_adaptations : List String
deriving DecidableEq

/-- `schemas.BiasDetectionResult`. -/
structure BiasDetectionResult where
  session_hash : String
  bias_detected : Bool
  indicators : List BiasIndicator
  readability_score : Rat
  complexity_level : String
  recommended_actions : List AdaptationType
  analysis_timestamp : String
  deterministic_hash : String
deriving DecidableEq

/-- `BiasDetector._detect_language_complexity_bias`. -/
def detect_language_complexity_bias (ext : PyExt) (content : String)
    (metrics : ReadabilityMetrics) : List BiasIndicator :=
  let fk_grade := metrics.flesch_kincaid_grade
  let grade_indicators :=
    if fk_grade ≥ COMPLEXITY_THRESHOLD_HIGH then
      [{ bias_type := BiasType.language_complexity
         severity := SeverityLevel.high
         confidence := 0.85
         description := "Content readability at grade level " ++ ext.fmt_fixed1 fk_grade
           ++ " may exclude learners without advanced vocabulary"
         affected_content_segment :=
           some (if content.length > 200 then ⟨content.data.take 200⟩ else content) }]
    else if fk_grade ≥ COMPLEXITY_THRESHOLD_MEDIUM then
      [{ bias_type := BiasType.language_complexity
         severity := SeverityLevel.medium
         confidence := 0.70
         description := "Content at grade level " ++ ext.fmt_fixed1 fk_grade
           ++ " - consider providing simpler alternatives"
         affected_content_segment := none }]
    else []
  let jargon_indicators :=
    (identify_jargon_patterns content).filterMap (fun pattern =>
      if pattern.type = "academic_language" then
        some { bias_type := BiasType.language_complexity
               severity := SeverityLevel.low
               confidence := 0.60
               description := "Academic jargon detected: " ++
                 String.intercalate ", " ((pattern.matched.take 5).map
                   (fun m => (⟨m⟩ : String)))
               affected_content_segment := none }
      else none)
  let complex_words := identify_complex_words ext content 3
  let density_indicators :=
    if complex_words.length > 10 then
      [{ bias_type := BiasType.language_complexity
         severity := SeverityLevel.medium
         confidence := 0.65
         description := "High density of complex words (" ++
           toString complex_words.length ++ " found)"
         affected_content_segment := none }]
    else []
  grade_indicators ++ jargon_indicators ++ density_indicators

/-- `BiasDetector._detect_pace_mismatch` (the unused `avg_response` of the
source is omitted; `slow_threshold_ms = 15000`). -/
def detect_pace_mismatch (ext : PyExt)
    (interaction_patterns : List InteractionPatternDict) : List BiasIndicator :=
  if interaction_patterns.isEmpty then []
  else
    let response_times := interaction_patterns.filterMap (fun p => p.response_time_ms)
    if response_times.isEmpty then []
    else
      let slow_responses := response_times.countP (fun t => decide (t > 15000))
      let slowFrac : Rat := (slow_responses : Rat) / (response_times.length : Rat)
      if slowFrac > 0.5 then
        [{ bias_type := BiasType.pace_mismatch
           severity := SeverityLevel.high
           confidence := 0.75
           description := "Interaction patterns suggest content pace may be too fast. "
             ++ ext.fmt_percent0 slowFrac ++ " of responses exceeded expected time."
           affected_content_segment := none }]
      else if slowFrac > 0.3 then
        [{ bias_type := BiasType.pace_mismatch
           severity := SeverityLevel.medium
           confidence := 0.60
           description :=
             "Some pace mismatch detected. Consider offering pace adjustment options."
           affected_content_segment := none }]
      else []

/-- `BiasDetector._detect_prior_exposure_gaps`. -/
def detect_prior_exposure_gaps
    (interaction_patterns : List InteractionPatternDict) : List BiasIndicator :=
  let clarification_count : Int :=
    (interaction_patterns.map (fun p => p.clarification_count.getD 0)).sum
  let repeated_errors := interaction_patterns.countP
    (fun p => p.is_repeated_error.getD false)
  let total_interactions := interaction_patterns.length
  if total_interactions = 0 then []
  else
    let clarFrac : Rat := (clarification_count : Rat) / (total_interactions : Rat)
    let errFrac : Rat := (repeated_errors : Rat) / (total_interactions : Rat)
    (if clarFrac > 1.5 then
      [{ bias_type := BiasType.prior_exposure_gap
         severity := SeverityLevel.high
         confidence := 0.70
         description := "High clarification rate suggests content may assume prior knowledge that isn\x27t universal"
         affected_content_segment := none }]
     else []) ++
    (if errFrac > 0.4 then
      [{ bias_type := BiasType.prior_exposure_gap
         severity := SeverityLevel.medium
         confidence := 0.65
         description := "Repeated errors suggest foundational concepts may need additional scaffolding"
         affected_content_segment := none }]
     else [])

/-- Match of `\s*[-•*]\s+` at the current position (used by the
`re.MULTILINE` list-marker search). -/
def listMarkerAfterWs : List Char → Bool
  | [] => false
  | c :: rest =>
    if pySpace c then listMarkerAfterWs rest
    else
      (c = '-' || c = '•' || c = '*') &&
        (match rest with | d :: _ => pySpace d | [] => false)

/-- Helper scanning for a line start (position after a newline). -/
def hasListAfterNl : List Char → Bool
  | [] => false
  | c :: rest => (c = '\n' && listMarkerAfterWs rest) || hasListAfterNl rest

/-- `re.search(r'^\s*[-•*]\s+', content, re.MULTILINE)`: some line start is
followed by optional whitespace, a list marker and at least one whitespace
character (the `\s` classes may span newlines exactly as in the regex). -/
def hasListLine (l : List Char) : Bool :=
  listMarkerAfterWs l || hasListAfterNl l

/-- `BiasDetector._detect_representation_issues`. -/
def detect_representation_issues (content : String) : List BiasIndicator :=
  let example_markers := ["for example", "e.g.", "for instance", "such as", "example:"]
  let has_examples :=
    example_markers.any (fun marker => containsL (lowerL content.data) marker.data)
  let example_indicators :=
    if content.length > 500 ∧ ¬has_examples then
      [{ bias_type := BiasType.representation_issue
         severity := SeverityLevel.low
         confidence := 0.55
         description := "Content lacks concrete examples which may disadvantage learners who benefit from examples"
         affected_content_segment := none }]
    else []
  let has_numbers := content.data.any Char.isDigit
  let has_lists := hasListLine content.data
  let abstract_indicators :=
    if content.length > 300 ∧ ¬has_numbers ∧ ¬has_lists then
      [{ bias_type := BiasType.representation_issue
         severity := SeverityLevel.low
         confidence := 0.50
         description := "Content is highly abstract. Consider adding concrete representations or structured lists."
         affected_content_segment := none }]
    else []
  example_indicators ++ abstract_indicators

/-- `BiasDetector._build_recommendations`.  The source accumulates a Python
`set` and returns `list(recommendations)`; set iteration order over enum
members is unspecified (identity-hash dependent) but fixed within a process,
and is modelled canonically in declaration order of `AdaptationType`. -/
def build_recommendations (indicators : List BiasIndicator) : List AdaptationType :=
  let recs : List AdaptationType := indicators.foldl (fun acc indicator =>
    acc ++ (match indicator.bias_type with
      | BiasType.language_complexity => [AdaptationType.simplify_language]
      | BiasType.pace_mismatch => [AdaptationType.adjust_pace]
      | BiasType.prior_exposure_gap =>
        [AdaptationType.add_examples, AdaptationType.simplify_language]
      | BiasType.representation_issue =>
        [AdaptationType.add_examples, AdaptationType.change_representation])) []
  [AdaptationType.simplify_language, AdaptationType.add_examples,
   AdaptationType.change_representation, AdaptationType.adjust_pace].filter
    (fun t => decide (t ∈ recs))

/-- Escapes of Python `repr` for one character (backslash, quote and the
common control characters; other non-printables, which escape to `\xhh`,
never occur in the audited values -- hex digests, enum value names and
session tokens). -/
def pyEsc (c : Char) : List Char :=
  if c = '\\' then ['\\', '\\']
  else if c = '\x27' then ['\\', '\x27']
  else if c = '\n' then ['\\', 'n']
  else if c = '\r' then ['\\', 'r']
  else if c = '\t' then ['\\', 't']
  else [c]

/-- Python `repr` of a string (single-quote form). -/
def pyReprStr (s : String) : String :=
  ⟨'\x27' :: (s.data.flatMap pyEsc) ++ ['\x27']⟩

/-- Python `str` of a list of strings, as it appears inside
`str(sorted(data.items()))`. -/
def pyReprStrList (l : List String) : String :=
  "[" ++ String.intercalate ", " (l.map pyReprStr) ++ "]"

/-- `BiasDetector._generate_audit_hash`: sha-256 (truncated to 16 hex
characters) of `str(sorted(data.items()))` for the four-entry dict built
from the session token, the truncated content hash, the indicator count and
the sorted indicator type names.  The keys sort alphabetically as
`content_hash`, `indicator_count`, `indicator_types`, `session`. -/
def generate_audit_hash (ext : PyExt) (session_hash content : String)
    (indicators : List BiasIndicator) : String :=
  let content_hash := (ext.sha256_hexdigest content).take 16
  let indicator_types :=
    insertionSortStr (indicators.map (fun i => i.bias_type.value))
  let data_str :=
    "[(" ++ pyReprStr "content_hash" ++ ", " ++ pyReprStr content_hash ++ "), (" ++
    pyReprStr "indicator_count" ++ ", " ++ toString indicators.length ++ "), (" ++
    pyReprStr "indicator_types" ++ ", " ++ pyReprStrList indicator_types ++ "), (" ++
    pyReprStr "session" ++ ", " ++ pyReprStr session_hash ++ ")]"
  (ext.sha256_hexdigest data_str).take 16

/-- `BiasDetector.detect_bias`.  `now` is the `datetime.utcnow().isoformat()`
reading taken during the call -- the only nondeterministic input. -/
def detect_bias (ext : PyExt) (request : BiasDetectionRequest) (now : String) :
    BiasDetectionResult :=
  let readability_metrics := get_readability_metrics ext request.content_text
  let complexity_indicators :=
    detect_language_complexity_bias ext request.content_text readability_metrics
  let pace_indicators :=
    if request.interaction_patterns.isEmpty then []
    else detect_pace_mismatch ext request.interaction_patterns
  let exposure_indicators :=
    if request.interaction_patterns.isEmpty then []
    else detect_prior_exposure_gaps request.interaction_patterns
  let representation_indicators := detect_representation_issues request.content_text
  let indicators := complexity_indicators ++ pace_indicators ++
    exposure_indicators ++ representation_indicators
  let recommended_actions := build_recommendations indicators
  let fk_grade := readability_metrics.flesch_kincaid_grade
  let complexity_level := get_complexity_level fk_grade
  let audit_hash :=
    generate_audit_hash ext request.session_hash request.content_text indicators
  { session_hash := request.session_hash
    bias_detected := indicators.length > 0
    indicators := indicators
    readability_score := fk_grade
    complexity_level := complexity_level
    recommended_actions := recommended_actions
    analysis_timestamp := now
    deterministic_hash := audit_hash }

/-! ## `modules/adaptive_engine.py` -/

/-- `schemas.AdaptedContent`. -/
structure AdaptedContent where
  adaptation_type : AdaptationType
  content : String
  complexity_level : String
  changes_made : List String
deriving DecidableEq

/-- The `interaction_signals` dictionary of an `AdaptationRequest`, read
only through `.get` (missing key is `none`). -/
structure InteractionSignals where
  clarification_count : Option Int
  is_repeated_error : Option Bool
  response_time_ms : Option Int
deriving DecidableEq

/-- `schemas.AdaptationRequest`. -/
structure AdaptationRequest where
  session_hash : String
  original_content : String
  requested_adaptations : List AdaptationType
  current_complexity_level : Option String
  interaction_signals : InteractionSignals
deriving DecidableEq

/-- `schemas.AdaptationResult`. -/
structure AdaptationResult where
  session_hash : String
  original_content : String
  adaptations : List AdaptedContent
  primary_recommendation : Option AdaptedContent
  adaptation_reasoning : String
  deterministic_hash : String
deriving DecidableEq

/-- `AdaptiveEngine._simplify_language`. -/
def simplify_language (ext : PyExt) (content : String)
    (signals : InteractionSignals) : AdaptedContent :=
  let clarification_count := signals.clarification_count.getD 0
  let level := if clarification_count > 3 then "simple" else "moderate"
  let simplified := simplify_text content level
  let orig_metrics := get_readability_metrics ext content
  let new_metrics := get_readability_metrics ext simplified
  let orig_grade := orig_metrics.flesch_kincaid_grade
  let new_grade := new_metrics.flesch_kincaid_grade
  let changes :=
    if new_grade < orig_grade then
      ["Reduced reading level from grade " ++ ext.fmt_fixed1 orig_grade ++
       " to " ++ ext.fmt_fixed1 new_grade]
    else []
  let orig_words := dedupFirst (splitWs (lowerL content.data))
  let new_words := splitWs (lowerL simplified.data)
  let replaced_count := orig_words.countP (fun w => decide (w ∉ new_words))
  let changes := changes ++
    (if replaced_count > 0 then
      ["Simplified " ++ toString replaced_count ++ " complex terms"]
     else [])
  let orig_sentences :=
    content.data.count '.' + content.data.count '!' + content.data.count '?'
  let new_sentences :=
    simplified.data.count '.' + simplified.data.count '!' + simplified.data.count '?'
  let changes := changes ++
    (if new_sentences > orig_sentences then ["Broke long sentences into shorter ones"]
     else [])
  let changes := if changes.isEmpty then ["Applied vocabulary simplification"] else changes
  { adaptation_type := AdaptationType.simplify_language
    content := simplified
    complexity_level := level
    changes_made := changes }

/-- Scanner producing the alternating word/non-word runs of a text, each
tagged with whether it is a word run. -/
def lexRunsGo (inWord : Bool) (cur : List Char) : List Char → List (Bool × List Char)
  | [] => [(inWord, cur.reverse)]
  | c :: rest =>
    if isWordChar c = inWord then lexRunsGo inWord (c :: cur) rest
    else (inWord, cur.reverse) :: lexRunsGo (isWordChar c) [c] rest

/-- Alternating tagged runs of a text. -/
def lexRuns : List Char → List (Bool × List Char)
  | [] => []
  | c :: rest => lexRunsGo (isWordChar c) [c] rest

/-- A word-character run that matches `[A-Z][a-z]+` completely. -/
def isCapToken : List Char → Bool
  | c :: d :: rest => c.isUpper && (d :: rest).all Char.isLower
  | _ => false

/-- Zip the alternating run list into `(separator-before, token)` pairs;
the first token of the text gets an empty separator. -/
def pairRuns : List (Bool × List Char) → List (List Char × List Char)
  | [] => []
  | (true, t) :: rest => ([], t) :: pairRuns rest
  | (false, s) :: (true, t) :: rest => (s, t) :: pairRuns rest
  | (false, _) :: rest => pairRuns rest

/-- `re.findall(r'\b[A-Z][a-z]+(?:\s+[A-Z][a-z]+)*\b', ...)` over the pair
list: a match is a maximal chain of complete `[A-Z][a-z]+` runs whose
intervening separator runs are entirely whitespace (a segment can never end
inside a run because the trailing `\b` would fail, so the regex backtracking
always lands on whole-run chains). -/
def groupCapSeqsGo (chain : Option (List Char)) :
    List (List Char × List Char) → List (List Char)
  | [] => (match chain with | some ch => [ch] | none => [])
  | (sep, t) :: rest =>
    match chain with
    | none =>
      if isCapToken t then groupCapSeqsGo (some t) rest
      else groupCapSeqsGo none rest
    | some ch =>
      if ¬sep.isEmpty && sep.all pySpace && isCapToken t then
        groupCapSeqsGo (some (ch ++ sep ++ t)) rest
      else
        ch :: (if isCapToken t then groupCapSeqsGo (some t) rest
               else groupCapSeqsGo none rest)

/-- Scanner for `re.findall(r'"([^"]+)"', ...)`: non-empty runs between
double quotes, scanned left to right; a quote closing an empty candidate
re-opens instead (the regex advances past the unmatched quote). -/
def quotedGo (inQ : Bool) (cur : List Char) : List Char → List (List Char)
  | [] => []
  | c :: rest =>
    if inQ then
      if c = '"' then
        if cur.isEmpty then quotedGo true [] rest
        else cur.reverse :: quotedGo false [] rest
      else quotedGo true (c :: cur) rest
    else
      if c = '"' then quotedGo true [] rest
      else quotedGo false [] rest

/-- `AdaptiveEngine._extract_key_concepts`: capitalized multi-word phrases
plus quoted phrases, deduplicated and truncated to five.  The Python
`list(set(words + quoted))` order is unspecified; modelled as
first-occurrence order. -/
def extract_key_concepts (content : String) : List String :=
  let words := groupCapSeqsGo none (pairRuns (lexRuns content.data))
  let quoted := quotedGo false [] content.data
  ((dedupFirst (words ++ quoted)).take 5).map (fun c => (⟨c⟩ : String))

/-- `AdaptiveEngine._generate_example_section`. -/
def generate_example_section (concepts : List String) : String :=
  if concepts.isEmpty then ""
  else
    let lines := ["**Examples to help understand:**", ""] ++
      (concepts.take 3).map (fun concept =>
        "â€¢ **" ++ concept ++ "**: [This concept can be understood as...]")
    String.intercalate "\n" lines

/-- Scanner for a single case-insensitive whole-word substitution
(`re.sub(rf'\b(w)\b', r'\1 sfx', ..., count=1, flags=re.IGNORECASE)`):
`prevW` tracks whether the previous character is a word character (the
leading `\b`), and the trailing `\b` is checked after the matched width. -/
def subWordOnceGo (word sfx : List Char) (prevW : Bool) : List Char → List Char
  | [] => []
  | c :: rest =>
    if !prevW && matchesCI word (c :: rest) &&
        (match (c :: rest).drop word.length with
         | d :: _ => !isWordChar d
         | [] => true) then
      (c :: rest).take word.length ++ sfx ++ (c :: rest).drop word.length
    else c :: subWordOnceGo word sfx (isWordChar c) rest

/-- Whole-word first-occurrence substitution; empty words never occur. -/
def subWordOnce (word sfx l : List Char) : List Char :=
  match word with
  | [] => l
  | _ :: _ => subWordOnceGo word sfx false l

/-- `AdaptiveEngine._add_inline_examples`. -/
def add_inline_examples (ext : PyExt) (content : String) : String :=
  let complex_words := identify_complex_words ext content 3
  if complex_words.isEmpty then content
  else
    (complex_words.take 2).foldl (fun modified word =>
      if word = "example".data ∨ word = "understanding".data then modified
      else if containsL (lowerL modified.data) (word ++ " (".data) then modified
      else ⟨subWordOnce word " (in simpler terms)".data modified.data⟩) content

/-- `AdaptiveEngine._add_examples`. -/
def add_examples (ext : PyExt) (content : String)
    (_signals : InteractionSignals) : AdaptedContent :=
  let example_markers := ["for example", "e.g.", "for instance", "such as"]
  let has_examples :=
    example_markers.any (fun marker => containsL (lowerL content.data) marker.data)
  let key_concepts := extract_key_concepts content
  let step1 :=
    if ¬has_examples ∧ ¬key_concepts.isEmpty then
      (content ++ "\n\n" ++ generate_example_section key_concepts,
       ["Added example section for " ++ toString key_concepts.length ++ " key concepts"])
    else (content, [])
  let inline_examples := add_inline_examples ext step1.1
  let step2 :=
    if inline_examples ≠ step1.1 then
      (inline_examples, step1.2 ++ ["Added inline examples for complex terms"])
    else step1
  let changes :=
    if step2.2.isEmpty then ["Content already contains sufficient examples"] else step2.2
  { adaptation_type := AdaptationType.add_examples
    content := step2.1
    complexity_level := "moderate"
    changes_made := changes }

/-- `AdaptiveEngine._convert_to_bullets` (the bullet literal is the byte
sequence actually stored in the source file). -/
def convert_to_bullets (content : String) : String :=
  let sentences := splitSentWs content.data
  if sentences.length < 3 then content
  else
    let bullets := sentences.filterMap (fun sentence =>
      let stripped := stripChars sentence
      if stripped.isEmpty then none
      else some ("â€¢ ".data ++ stripped))
    ⟨List.intercalate "\n".data bullets⟩

/-- `AdaptiveEngine._add_structure`. -/
def add_structure (content : String) : String :=
  let paragraphs := splitParas content.data
  if paragraphs.length < 2 then
    let sentences := splitSentWs content.data
    if sentences.length ≥ 4 then
      let mid := sentences.length / 2
      ⟨List.intercalate "\n\n".data
        [List.intercalate " ".data (sentences.take mid),
         List.intercalate " ".data (sentences.drop mid)]⟩
    else content
  else
    let structured := (paragraphs.enumFrom 1).filterMap (fun para =>
      if (stripChars para.2).isEmpty then none
      else some ("**Part ".data ++ (toString para.1).data ++ ":**\n".data ++ para.2))
    ⟨List.intercalate "\n\n".data structured⟩

/-- `AdaptiveEngine._add_summary`. -/
def add_summary (content : String) : String :=
  let first_sentence := (splitSentWs content.data).headD []
  let first_sentence :=
    if first_sentence.length > 100 then first_sentence.take 100 ++ "...".data
    else first_sentence
  ⟨"**Quick Overview:** ".data ++ first_sentence ++ "\n\n---\n\n".data ++ content.data⟩

/-- `AdaptiveEngine._change_representation`.  The structural-marker check of
the second sub-step inspects the original `content` (as in the source), not
the modified text. -/
def change_representation (content : String)
    (_signals : InteractionSignals) : AdaptedContent :=
  let step1 :=
    if content.length > 200 ∧ content.data.count '\n' < 3 then
      let bulleted := convert_to_bullets content
      if bulleted ≠ content then (bulleted, ["Converted dense text to bullet points"])
      else (content, [])
    else (content, [])
  let markers := ["â€¢", "-", "*", "1.", "2."]
  let step2 :=
    if ¬markers.any (fun marker => containsL content.data marker.data) then
      let structured := add_structure step1.1
      if structured ≠ step1.1 then
        (structured, step1.2 ++ ["Added structural organization"])
      else step1
    else step1
  let step3 :=
    if content.length > 500 then
      let with_summary := add_summary step2.1
      if with_summary ≠ step2.1 then
        (with_summary, step2.2 ++ ["Added summary introduction"])
      else step2
    else step2
  let changes := if step3.2.isEmpty then ["Reorganized content structure"] else step3.2
  { adaptation_type := AdaptationType.change_representation
    content := step3.1
    complexity_level := "moderate"
    changes_made := changes }

/-- Sentence grouping in threes used by `_split_into_chunks`. -/
def chunkJoin3 : List (List Char) → List (List Char)
  | [] => []
  | [a] => [a]
  | [a, b] => [List.intercalate [' '] [a, b]]
  | a :: b :: c :: rest => List.intercalate [' '] [a, b, c] :: chunkJoin3 rest

/-- `AdaptiveEngine._split_into_chunks`. -/
def split_into_chunks (content : String) : List String :=
  let paragraphs := splitParas content.data
  if paragraphs.length ≥ 3 then paragraphs.map (fun p => (⟨p⟩ : String))
  else
    let sentences := splitSentWs content.data
    if sentences.length < 4 then [content]
    else
      (chunkJoin3 sentences).filterMap (fun chunk =>
        if (stripChars chunk).isEmpty then none else some (⟨chunk⟩ : String))

/-- `AdaptiveEngine._add_pace_markers`. -/
def add_pace_markers (chunks : List String) : String :=
  match chunks with
  | [] => ""
  | [c] => c
  | cs => String.intercalate "\n\n---\n\n" cs

/-- The reflection prompt literal, with the byte sequence actually stored in
the source file. -/
def reflection_prompt : String :=
  "\n\nðŸ’¡ **Pause and reflect:** What\x27s the main point so far?\n\n"

/-- The `for i in range(midpoint, search_end)` scan of
`_add_reflection_prompts`: find the first index `i` in `[midpoint,
search_end)` holding a sentence-ending character that is not the last
character, and return the insertion point `i + 1`.  The scan starts at the
midpoint: the source computes `search_start = max(0, midpoint - 50)` but
never uses it, so the backward half of the window is never examined. -/
def findBreak : List Char → Nat → Nat → Option Nat
  | [], _, _ => none
  | c :: rest, i, fin =>
    if i < fin then
      if isSentPunct c && !rest.isEmpty then some (i + 1)
      else findBreak rest (i + 1) fin
    else none

/-- `AdaptiveEngine._add_reflection_prompts`. -/
def add_reflection_prompts (content : String) : String :=
  let l := content.data
  let midpoint := l.length / 2
  let search_end := min l.length (midpoint + 50)
  match findBreak (l.drop midpoint) midpoint search_end with
  | some insert_point =>
    ⟨l.take insert_point ++ reflection_prompt.data ++ l.drop insert_point⟩
  | none => content

/-- `AdaptiveEngine._adjust_pace`. -/
def adjust_pace (content : String) (_signals : InteractionSignals) : AdaptedContent :=
  let chunks := split_into_chunks content
  let step1 :=
    if chunks.length > 1 then
      (add_pace_markers chunks,
       ["Divided content into " ++ toString chunks.length ++ " digestible sections"])
    else (content, ["Content is already appropriately paced"])
  let step2 :=
    if content.length > 800 then
      let with_pauses := add_reflection_prompts step1.1
      if with_pauses ≠ step1.1 then
        (with_pauses, step1.2 ++ ["Added reflection checkpoints"])
      else step1
    else step1
  { adaptation_type := AdaptationType.adjust_pace
    content := step2.1
    complexity_level := "simple"
    changes_made := step2.2 }

/-- `AdaptiveEngine._apply_adaptation`.  The trailing `return None` of the
source is unreachable: the four enum members are all handled. -/
def apply_adaptation (ext : PyExt) (content : String)
    (adaptation_type : AdaptationType) (signals : InteractionSignals) :
    Option AdaptedContent :=
  match adaptation_type with
  | AdaptationType.simplify_language => some (simplify_language ext content signals)
  | AdaptationType.add_examples => some (add_examples ext content signals)
  | AdaptationType.change_representation => some (change_representation content signals)
  | AdaptationType.adjust_pace => some (adjust_pace content signals)

/-- Membership in the `signal_priority` dict of
`_select_primary_adaptation`: a key is present exactly when its signal rule
fired. -/
def in_signal_priority (signals : InteractionSignals) (t : AdaptationType) : Bool :=
  (t = AdaptationType.simplify_language && signals.clarification_count.getD 0 > 2) ||
  (t = AdaptationType.add_examples && signals.is_repeated_error.getD false) ||
  (t = AdaptationType.adjust_pace && signals.response_time_ms.getD 0 > 15000)

/-- `AdaptiveEngine._select_primary_adaptation`. -/
def select_primary_adaptation (adaptations : List AdaptedContent)
    (signals : InteractionSignals) : Option AdaptedContent :=
  if adaptations.isEmpty then none
  else
    match adaptations.find? (fun a => in_signal_priority signals a.adaptation_type) with
    | some a => some a
    | none => adaptations.head?

/-- `AdaptiveEngine._build_adaptation_reasoning`. -/
def build_adaptation_reasoning (requested_types : List AdaptationType)
    (_signals : InteractionSignals) : String :=
  let reasons := requested_types.map (fun adapt_type =>
    match adapt_type with
    | AdaptationType.simplify_language =>
      "Language simplified based on interaction patterns indicating comprehension barriers"
    | AdaptationType.add_examples =>
      "Examples added to provide concrete understanding of abstract concepts"
    | AdaptationType.change_representation =>
      "Content restructured to offer alternative learning pathway"
    | AdaptationType.adjust_pace =>
      "Content chunked to allow for gradual comprehension")
  if reasons.isEmpty then "Standard adaptation applied"
  else String.intercalate " | " reasons

/-- `AdaptiveEngine._generate_audit_hash` (keys sort as `adaptation_types`,
`original_hash`, `session`). -/
def generate_adaptation_audit_hash (ext : PyExt) (session_hash original : String)
    (adaptations : List AdaptedContent) : String :=
  let original_hash := (ext.sha256_hexdigest original).take 16
  let adaptation_types :=
    insertionSortStr (adaptations.map (fun a => a.adaptation_type.value))
  let data_str :=
    "[(" ++ pyReprStr "adaptation_types" ++ ", " ++ pyReprStrList adaptation_types ++
    "), (" ++ pyReprStr "original_hash" ++ ", " ++ pyReprStr original_hash ++
    "), (" ++ pyReprStr "session" ++ ", " ++ pyReprStr session_hash ++ ")]"
  (ext.sha256_hexdigest data_str).take 16

/-- `AdaptiveEngine.generate_adaptation` (a pure function of the request:
no clock is read anywhere in the engine). -/
def generate_adaptation (ext : PyExt) (request : AdaptationRequest) :
    AdaptationResult :=
  let adaptations := request.requested_adaptations.filterMap (fun t =>
    apply_adaptation ext request.original_content t request.interaction_signals)
  let primary := select_primary_adaptation adaptations request.interaction_signals
  let reasoning :=
    build_adaptation_reasoning request.requested_adaptations request.interaction_signals
  let audit_hash := generate_adaptation_audit_hash ext request.session_hash
    request.original_content adaptations
  { session_hash := request.session_hash
    original_content := request.original_content
    adaptations := adaptations
    primary_recommendation := primary
    adaptation_reasoning := reasoning
    deterministic_hash := audit_hash }

/-! ## Concrete instances used by witnesses and counterexamples -/

/-- A concrete `PyExt` instance (arbitrary fixed values for the external
primitives), used to evaluate the embedding at concrete inputs. -/
def pyExtStub : PyExt :=
  { flesch_kincaid_grade := fun _ => 0
    flesch_reading_ease := fun _ => 0
    gunning_fog := fun _ => 0
    smog_index := fun _ => 0
    automated_readability_index := fun _ => 0
    coleman_liau_index := fun _ => 0
    dale_chall_readability_score := fun _ => 0
    syllable_count := fun _ => 0
    fmt_fixed1 := fun _ => "0.0"
    fmt_percent0 := fun _ => "0%"
    sha256_hexdigest := fun _ => "" }

/-- A small concrete bias-detection request. -/
def smallBiasRequest : BiasDetectionRequest :=
  { session_hash := "s", content_text := "hi",
    interaction_patterns := [], previous_adaptations := [] }

/-! ## Claims -/

/-- C1: for fixed request data the audit hash of `detect-bias` is identical
across repeated calls (it does not depend on the `utcnow` reading, the only
nondeterministic input), and the audit hash of `generate-adaptation` is
identical across repeated calls (the engine is a pure function of the
request: it reads no clock at all). -/
theorem audit_hashes_deterministic :
    (∀ (ext : PyExt) (request : BiasDetectionRequest) (now₁ now₂ : String),
      (detect_bias ext request now₁).deterministic_hash =
        (detect_bias ext request now₂).deterministic_hash) ∧
    (∀ (ext : PyExt) (request : AdaptationRequest),
      (generate_adaptation ext request).deterministic_hash =
        (generate_adaptation ext request).deterministic_hash) :=
  ⟨fun _ _ _ _ => rfl, fun _ _ => rfl⟩

/-- C2 counterexample: two calls of `detect_bias` on the same request taken
at different clock readings return results that differ (in the
`analysis_timestamp` field), so the entire `BiasDetectionResult` is not
identical field for field across repeated calls. -/
theorem detect_bias_result_not_identical_across_calls :
    detect_bias pyExtStub smallBiasRequest "2024-01-01T00:00:00" ≠
      detect_bias pyExtStub smallBiasRequest "2024-01-01T00:00:01" := by
  decide

/-- C2 amended: across repeated calls on identical request data every field
of the returned `BiasDetectionResult` except `analysis_timestamp` is
identical (indicators, recommended actions and their order included);
`analysis_timestamp` equals the wall-clock reading taken during the call. -/
theorem detect_bias_deterministic_except_timestamp (ext : PyExt)
    (request : BiasDetectionRequest) (now₁ now₂ : String) :
    (detect_bias ext request now₁).session_hash =
      (detect_bias ext request now₂).session_hash ∧
    (detect_bias ext request now₁).bias_detected =
      (detect_bias ext request now₂).bias_detected ∧
    (detect_bias ext request now₁).indicators =
      (detect_bias ext request now₂).indicators ∧
    (detect_bias ext request now₁).readability_score =
      (detect_bias ext request now₂).readability_score ∧
    (detect_bias ext request now₁).complexity_level =
      (detect_bias ext request now₂).complexity_level ∧
    (detect_bias ext request now₁).recommended_actions =
      (detect_bias ext request now₂).recommended_actions ∧
    (detect_bias ext request now₁).deterministic_hash =
      (detect_bias ext request now₂).deterministic_hash ∧
    (detect_bias ext request now₁).analysis_timestamp = now₁ ∧
    (detect_bias ext request now₂).analysis_timestamp = now₂ :=
  ⟨rfl, rfl, rfl, rfl, rfl, rfl, rfl, rfl, rfl⟩

/-- C9: for any text that strips to fewer than 10 characters (the empty
string included) `get_readability_metrics` returns exactly the trivial
baseline -- grade 0, reading ease 100, and 0 for the other five scores --
and, being a total function, raises nothing. -/
theorem get_readability_metrics_trivial_on_short_text (ext : PyExt)
    (text : String) (h : (stripChars text.data).length < 10) :
    get_readability_metrics ext text = trivialMetrics := by
  unfold get_readability_metrics
  rw [if_pos (Or.inr h)]

/-- Witness for C9 at the empty string. -/
theorem get_readability_metrics_trivial_on_short_text_witness :
    (stripChars "".data).length < 10 ∧
      get_readability_metrics pyExtStub "" = trivialMetrics :=
  ⟨by decide, get_readability_metrics_trivial_on_short_text pyExtStub "" (by decide)⟩

/-- C10: the bias-detection audit hash depends only on the session token,
the content text, and the sorted list of indicator bias-type names (which
determines the indicator count): indicator severities, confidences,
descriptions and affected segments do not enter the hash. -/
theorem generate_audit_hash_depends_only_on_type_names (ext : PyExt)
    (session_hash content : String) (ind₁ ind₂ : List BiasIndicator)
    (h : insertionSortStr (ind₁.map (fun i => i.bias_type.value)) =
         insertionSortStr (ind₂.map (fun i => i.bias_type.value))) :
    generate_audit_hash ext session_hash content ind₁ =
      generate_audit_hash ext session_hash content ind₂ := by
  have h₁ := insertionSortStr_length (ind₁.map (fun i => i.bias_type.value))
  have h₂ := insertionSortStr_length (ind₂.map (fun i => i.bias_type.value))
  rw [h, h₂] at h₁
  have hlen : ind₁.length = ind₂.length := by simpa using h₁.symm
  simp [generate_audit_hash, h, hlen]

/-- Indicator pair for the C10 witness: same bias type, different severity,
confidence, description and affected segment. -/
def witnessInd₁ : List BiasIndicator :=
  [{ bias_type := BiasType.language_complexity, severity := SeverityLevel.high,
     confidence := 0.85, description := "x", affected_content_segment := none }]

def witnessInd₂ : List BiasIndicator :=
  [{ bias_type := BiasType.language_complexity, severity := SeverityLevel.low,
     confidence := 0.5, description := "y", affected_content_segment := some "z" }]

/-- Witness for C10: the hashes agree on two single-indicator lists that
differ in everything but the bias-type name. -/
theorem generate_audit_hash_depends_only_on_type_names_witness :
    insertionSortStr (witnessInd₁.map (fun i => i.bias_type.value)) =
      insertionSortStr (witnessInd₂.map (fun i => i.bias_type.value)) ∧
    generate_audit_hash pyExtStub "s" "c" witnessInd₁ =
      generate_audit_hash pyExtStub "s" "c" witnessInd₂ :=
  ⟨by decide,
   generate_audit_hash_depends_only_on_type_names pyExtStub "s" "c"
     witnessInd₁ witnessInd₂ (by decide)⟩

/-- C4 counterexample: at exactly the slow threshold (10,000 ms) a
non-clarification record classifies as `"normal"`, not `"deliberate"`, and
at exactly the fast threshold (1,000 ms) it classifies as `"normal"`, not
`"quick"`: the comparisons in the code are strict, not inclusive. -/
theorem classify_response_pattern_boundaries_not_inclusive :
    classify_response_pattern mkInteractionAnalyzer 10000 "read" ≠ "deliberate" ∧
    classify_response_pattern mkInteractionAnalyzer 10000 "read" = "normal" ∧
    classify_response_pattern mkInteractionAnalyzer 1000 "read" ≠ "quick" ∧
    classify_response_pattern mkInteractionAnalyzer 1000 "read" = "normal" := by
  decide

/-- C4 amended: the single-record classifier returns `"seeking_help"` when
the action type is a clarification action; otherwise `"deliberate"` when the
response time is strictly greater than the slow threshold (default
10,000 ms); otherwise `"quick"` when it is strictly less than the fast
threshold (default 1,000 ms); otherwise `"normal"` -- so at exactly
10,000 ms and exactly 1,000 ms the result is `"normal"`.  The action-type
check takes precedence over the timing checks. -/
theorem classify_response_pattern_correct (response_time_ms : Int)
    (action_type : String) :
    (action_type = "clarification" →
      classify_response_pattern mkInteractionAnalyzer response_time_ms action_type =
        "seeking_help") ∧
    (action_type ≠ "clarification" → response_time_ms > 10000 →
      classify_response_pattern mkInteractionAnalyzer response_time_ms action_type =
        "deliberate") ∧
    (action_type ≠ "clarification" → response_time_ms ≤ 10000 →
        response_time_ms < 1000 →
      classify_response_pattern mkInteractionAnalyzer response_time_ms action_type =
        "quick") ∧
    (action_type ≠ "clarification" → response_time_ms ≤ 10000 →
        response_time_ms ≥ 1000 →
      classify_response_pattern mkInteractionAnalyzer response_time_ms action_type =
        "normal") := by
  refine ⟨fun h => ?_, fun h h' => ?_, fun h h' h'' => ?_, fun h h' h'' => ?_⟩ <;>
    simp only [classify_response_pattern, mkInteractionAnalyzer] <;>
    split_ifs <;> first | rfl | omega | simp_all

/-- Witness for C4 at a strictly slow record. -/
theorem classify_response_pattern_correct_witness :
    classify_response_pattern mkInteractionAnalyzer 25000 "read" = "deliberate" :=
  (classify_response_pattern_correct 25000 "read").2.1 (by decide) (by decide)

/-- C5: the single-record classifier flags `requires_adaptation` with a
non-empty suggestion list exactly when the response-speed indicator is
`taking_time` (contributing simplify-language), or the record is a repeated
error (contributing add-examples and change-representation), or the
clarification count reaches the high-clarification threshold (default 3,
contributing simplify-language). -/
theorem analyze_single_interaction_requires_adaptation_iff
    (interaction : InteractionData) :
    (((analyze_single_interaction mkInteractionAnalyzer interaction).requires_adaptation
        = true ∧
      (analyze_single_interaction mkInteractionAnalyzer interaction).suggested_adaptations
        ≠ []) ↔
      ((build_comprehension_indicators mkInteractionAnalyzer interaction).response_speed
          = "taking_time" ∨
        interaction.is_repeated_error = true ∨
        interaction.clarification_count ≥ 3)) ∧
    ((build_comprehension_indicators mkInteractionAnalyzer interaction).response_speed
        = "taking_time" →
      AdaptationType.simplify_language ∈
        (analyze_single_interaction mkInteractionAnalyzer interaction).suggested_adaptations) ∧
    (interaction.is_repeated_error = true →
      AdaptationType.add_examples ∈
        (analyze_single_interaction mkInteractionAnalyzer interaction).suggested_adaptations ∧
      AdaptationType.change_representation ∈
        (analyze_single_interaction mkInteractionAnalyzer interaction).suggested_adaptations) ∧
    (interaction.clarification_count ≥ 3 →
      AdaptationType.simplify_language ∈
        (analyze_single_interaction mkInteractionAnalyzer interaction).suggested_adaptations) := by
  simp only [analyze_single_interaction, determine_adaptations,
    build_comprehension_indicators, mkInteractionAnalyzer]
  split_ifs <;> simp_all

/-- The `slow_interaction` fixture of the repository's test suite
(`response_time_ms=25000`, `is_repeated_error=true`). -/
def slowInteraction : InteractionData :=
  { session_hash := "test_session_slow", content_id := "content_abc",
    response_time_ms := 25000, action_type := "read",
    content_text := some "Complex content", is_repeated_error := true,
    clarification_count := 0, time_on_content_seconds := 120 }

/-- Witness for C5: the slow repeated-error fixture requires adaptation. -/
theorem analyze_single_interaction_requires_adaptation_iff_witness :
    (analyze_single_interaction mkInteractionAnalyzer slowInteraction).requires_adaptation
      = true := by
  have h := analyze_single_interaction_requires_adaptation_iff slowInteraction
  exact (h.1.mpr (Or.inl (by decide))).1

/-- C6: over the entries carrying a `response_time_ms` value, the
pace-mismatch sub-detector computes the fraction exceeding 15,000 ms and
emits exactly one HIGH indicator (confidence 0.75) when the fraction is
greater than 0.5, exactly one MEDIUM indicator (confidence 0.60) when it is
greater than 0.3 but not greater than 0.5, and nothing otherwise. -/
theorem detect_pace_mismatch_fraction_rule (ext : PyExt)
    (patterns : List InteractionPatternDict)
    (hne : patterns ≠ [])
    (hrt : patterns.filterMap (fun p => p.response_time_ms) ≠ []) :
    (let response_times := patterns.filterMap (fun p => p.response_time_ms)
     let frac : Rat := ((response_times.countP (fun t => decide (t > 15000))) : Rat) /
       (response_times.length : Rat)
     (frac > 0.5 → detect_pace_mismatch ext patterns =
        [{ bias_type := BiasType.pace_mismatch
           severity := SeverityLevel.high
           confidence := 0.75
           description := "Interaction patterns suggest content pace may be too fast. "
             ++ ext.fmt_percent0 frac ++ " of responses exceeded expected time."
           affected_content_segment := none }]) ∧
     (¬frac > 0.5 → frac > 0.3 → detect_pace_mismatch ext patterns =
        [{ bias_type := BiasType.pace_mismatch
           severity := SeverityLevel.medium
           confidence := 0.60
           description :=
             "Some pace mismatch detected. Consider offering pace adjustment options."
           affected_content_segment := none }]) ∧
     (¬frac > 0.3 → detect_pace_mismatch ext patterns = [])) := by
  have h₁ : patterns.isEmpty = false := by
    cases patterns with
    | nil => exact absurd rfl hne
    | cons a l => rfl
  have h₂ : (patterns.filterMap (fun p => p.response_time_ms)).isEmpty = false := by
    cases h : patterns.filterMap (fun p => p.response_time_ms) with
    | nil => exact absurd h hrt
    | cons a l => rfl
  refine ⟨fun hgt => ?_, fun hle hgt => ?_, fun hle => ?_⟩
  all_goals simp only [detect_pace_mismatch, h₁, h₂, Bool.false_eq_true, if_false]
  all_goals split_ifs <;> first | rfl | linarith

/-- The pace-mismatch pattern list of the repository's test properties
(response times 20000, 18000, 5000 ms). -/
def pacePatterns : List InteractionPatternDict :=
  [{ response_time_ms := some 20000, clarification_count := none,
     is_repeated_error := none },
   { response_time_ms := some 18000, clarification_count := none,
     is_repeated_error := none },
   { response_time_ms := some 5000, clarification_count := none,
     is_repeated_error := none }]

/-- Witness for C6: response times `[20000, 18000, 5000]` give fraction 2/3,
hence one HIGH pace-mismatch indicator. -/
theorem detect_pace_mismatch_fraction_rule_witness :
    detect_pace_mismatch pyExtStub pacePatterns =
      [{ bias_type := BiasType.pace_mismatch
         severity := SeverityLevel.high
         confidence := 0.75
         description := "Interaction patterns suggest content pace may be too fast. 0% of responses exceeded expected time."
         affected_content_segment := none }] := by
  have h := detect_pace_mismatch_fraction_rule pyExtStub pacePatterns
    (by decide) (by decide)
  have h₂ := h.1 (by
    norm_num [pacePatterns, List.filterMap_cons, List.filterMap_nil,
      List.countP_cons, List.countP_nil])
  exact h₂.trans rfl

/-- C7: the primary recommendation is the first produced adaptation (in
generation order) whose type is in the priority set built from the signals
(clarification_count > 2 prioritizes simplify-language, a repeated error
prioritizes add-examples, response_time_ms > 15000 prioritizes adjust-pace);
if none matches it is the first produced adaptation, and if none were
produced it is nothing. -/
theorem select_primary_adaptation_rule (adaptations : List AdaptedContent)
    (signals : InteractionSignals) :
    (adaptations = [] → select_primary_adaptation adaptations signals = none) ∧
    (∀ a, adaptations.find? (fun x => in_signal_priority signals x.adaptation_type) =
        some a →
      select_primary_adaptation adaptations signals = some a) ∧
    (adaptations ≠ [] →
      adaptations.find? (fun x => in_signal_priority signals x.adaptation_type) =
        none →
      select_primary_adaptation adaptations signals = adaptations.head?) ∧
    (∀ t, in_signal_priority signals t = true ↔
      ((signals.clarification_count.getD 0 > 2 ∧ t = AdaptationType.simplify_language) ∨
       (signals.is_repeated_error.getD false = true ∧ t = AdaptationType.add_examples) ∨
       (signals.response_time_ms.getD 0 > 15000 ∧ t = AdaptationType.adjust_pace))) := by
  refine ⟨fun h => by simp [select_primary_adaptation, h], fun a ha => ?_,
    fun hne hnone => ?_, fun t => ?_⟩
  · cases adaptations with
    | nil => simp at ha
    | cons b l => simp [select_primary_adaptation, ha]
  · cases adaptations with
    | nil => exact absurd rfl hne
    | cons b l => simp [select_primary_adaptation, hnone]
  · cases t <;> simp [in_signal_priority]

/-- Adaptation pair for the C7 witness. -/
def witnessAdaptA : AdaptedContent :=
  { adaptation_type := AdaptationType.add_examples, content := "a",
    complexity_level := "moderate", changes_made := [] }

def witnessAdaptP : AdaptedContent :=
  { adaptation_type := AdaptationType.adjust_pace, content := "p",
    complexity_level := "simple", changes_made := [] }

/-- Witness for C7: with a slow-response signal the adjust-pace adaptation
is selected over the earlier add-examples one. -/
theorem select_primary_adaptation_rule_witness :
    select_primary_adaptation [witnessAdaptA, witnessAdaptP]
      { clarification_count := none, is_repeated_error := none,
        response_time_ms := some 20000 } = some witnessAdaptP := by
  have h := select_primary_adaptation_rule [witnessAdaptA, witnessAdaptP]
    { clarification_count := none, is_repeated_error := none,
      response_time_ms := some 20000 }
  exact h.2.1 witnessAdaptP (by decide)

/-- A phrase that occurs nowhere (case-insensitively) is not substituted. -/
theorem replCIGo_eq_self (k v : List Char) (l : List Char)
    (h : containsCI k l = false) : replCIGo k v 0 l = l := by
  induction l with
  | nil => rfl
  | cons c rest ih =>
    simp only [containsCI, Bool.or_eq_false_iff] at h
    simp only [replCIGo, h.1, Bool.false_eq_true, if_false]
    rw [ih h.2]

theorem replaceCI_eq_self (k v l : List Char)
    (h : containsCI k l = false) : replaceCI k v l = l := by
  cases k with
  | nil => rfl
  | cons a as => exact replCIGo_eq_self (a :: as) v l h

/-- If no phrase of the table occurs in a text the whole substitution pass
is the identity. -/
theorem foldl_replaceCI_eq_self (tbl : List (List Char × List Char))
    (l : List Char) (h : ∀ kv ∈ tbl, containsCI kv.1 l = false) :
    tbl.foldl (fun s kv => replaceCI kv.1 kv.2 s) l = l := by
  induction tbl with
  | nil => rfl
  | cons kv rest ih =>
    have h₁ := h kv (List.mem_cons_self kv rest)
    simp only [List.foldl_cons, replaceCI_eq_self kv.1 kv.2 l h₁]
    exact ih (fun kv' hkv' => h kv' (List.mem_cons_of_mem kv hkv'))

/-- A prefix of a list with no leading whitespace has no leading
whitespace. -/
theorem dropLeadWs_eq_self_of_initial (l l' : List Char)
    (h : dropLeadWs l = l) (hp : l' <+: l) : dropLeadWs l' = l' := by
  unfold dropLeadWs at h ⊢
  cases l' with
  | nil => rfl
  | cons c t =>
    obtain ⟨s, hs⟩ := hp
    rw [List.dropWhile_eq_self_iff] at h ⊢
    intro hl
    have h₀ := h (by rw [← hs]; simp)
    subst hs
    simpa using h₀

/-- `str.strip()` is idempotent. -/
theorem stripChars_idem (l : List Char) : stripChars (stripChars l) = stripChars l := by
  unfold stripChars
  have hmm : dropLeadWs (dropLeadWs l) = dropLeadWs l :=
    List.dropWhile_idempotent pySpace l
  have hpre : dropTrailWs (dropLeadWs l) <+: dropLeadWs l :=
    List.rdropWhile_prefix pySpace (dropLeadWs l)
  rw [dropLeadWs_eq_self_of_initial (dropLeadWs l) (dropTrailWs (dropLeadWs l)) hmm hpre]
  exact List.rdropWhile_idempotent pySpace (dropLeadWs l)

/-- C3 counterexample: `simplify_text` at level `"moderate"` is not a fixed
point on its own output.  On `"prior in order to x"` the first run rewrites
`"in order to"` to `"to"`, creating a fresh occurrence of the table phrase
`"prior to"`, which the second run rewrites to `"before"`. -/
theorem simplify_text_moderate_not_idempotent :
    simplify_text (simplify_text "prior in order to x" "moderate") "moderate" ≠
      simplify_text "prior in order to x" "moderate" ∧
    simplify_text "prior in order to x" "moderate" = "prior to x" ∧
    simplify_text "prior to x" "moderate" = "before x" := by
  decide

/-- C3 amended: re-running `simplify_text` at level `"moderate"` on its own
output performs no additional phrase substitutions provided the first run's
output contains no phrase of the substitution table (case-insensitively);
in general a substitution can juxtapose text so that a table phrase appears
across a replacement site and the second run substitutes again. -/
theorem simplify_text_moderate_idempotent_without_new_phrases (text : String)
    (h : ∀ kv ∈ replacements,
      containsCI kv.1 (simplify_text text "moderate").data = false) :
    simplify_text (simplify_text text "moderate") "moderate" =
      simplify_text text "moderate" := by
  have hmod : ∀ s : String, simplify_text s "moderate" =
      ⟨stripChars (replacements.foldl (fun l kv => replaceCI kv.1 kv.2 l) s.data)⟩ := by
    intro s
    simp [simplify_text]
  rw [hmod (simplify_text text "moderate")]
  rw [foldl_replaceCI_eq_self replacements (simplify_text text "moderate").data h]
  rw [hmod text]
  simp [stripChars_idem]

/-- Witness for C3 (amended): a text whose simplified form contains no table
phrase. -/
theorem simplify_text_moderate_idempotent_without_new_phrases_witness :
    (∀ kv ∈ replacements,
      containsCI kv.1 (simplify_text "The cat sat." "moderate").data = false) ∧
    simplify_text (simplify_text "The cat sat." "moderate") "moderate" =
      simplify_text "The cat sat." "moderate" :=
  ⟨by decide,
   simplify_text_moderate_idempotent_without_new_phrases "The cat sat." (by decide)⟩

/-- A 900-character content whose only sentence boundary sits at index 430:
inside the claimed ±50 window around the midpoint (450), but before the
midpoint. -/
def reflectionTestContent : String :=
  ⟨List.replicate 430 'a' ++ '.' :: List.replicate 469 'b'⟩

set_option maxRecDepth 10000 in
/-- C8 (code bug): the source computes `search_start = max(0, midpoint - 50)`
but the scan loop runs over `range(midpoint, search_end)` only, so a
sentence boundary in the backward half of the ±50 window is never found.
On `reflectionTestContent` (length 900, boundary at index 430, midpoint 450,
claimed window `[400, 500)`) `_add_reflection_prompts` inserts nothing and
the adjust-pace transform returns the content unchanged, although the claim
requires a "Pause and reflect" prompt at the boundary. -/
theorem add_reflection_prompts_misses_backward_window :
    reflectionTestContent.length = 900 ∧
    reflectionTestContent.data.get? 430 = some '.' ∧
    reflectionTestContent.length / 2 - 50 ≤ 430 ∧
    430 < reflectionTestContent.length / 2 + 50 ∧
    add_reflection_prompts reflectionTestContent = reflectionTestContent ∧
    (adjust_pace reflectionTestContent
        { clarification_count := none, is_repeated_error := none,
          response_time_ms := none }).content = reflectionTestContent := by
  refine ⟨by decide, by decide, by decide, by decide, by decide, by decide⟩
